import Mathlib

/-!
Verification of the mlflood flood-management core: risk classification,
rainfall/flood-risk forecasting, anomaly detection, rolling-window
aggregation and feature enrichment, shallowly embedded from the Python
sources (app/main.py, app/config.py, app/services/forecast_service.py,
app/services/anomaly_detector.py, app/services/data_collector.py,
src/feature_engineering.py).

Numeric values are modelled as rationals (reals where a square root
occurs); Python's `round(x, 2)` is modelled as rounding to a multiple of
1/100 with ties to even.  Wall-clock timestamp strings attached to
emitted records are not modelled (they are opaque passthrough data).
-/

namespace Mlflood

/-! ### Python round(x, 2) -/

/-- Round a rational to the nearest integer, ties to even
(the rounding mode of Python's built-in `round`). -/
def roundHalfEven (q : ℚ) : ℤ :=
  if q - ⌊q⌋ < 1/2 then ⌊q⌋
  else if q - ⌊q⌋ > 1/2 then ⌊q⌋ + 1
  else if 2 ∣ ⌊q⌋ then ⌊q⌋ else ⌊q⌋ + 1

/-- Python's `round(x, 2)`: round to two decimal places. -/
def pyRound2 (q : ℚ) : ℚ := (roundHalfEven (100 * q) : ℚ) / 100

/-! ### Risk classifier — app/config.py `RISK_THRESHOLDS`, app/main.py `get_risk_level` -/

/-- The `RISK_THRESHOLDS` dict of app/config.py, as a lookup function. -/
def RISK_THRESHOLDS (level : String) : ℚ :=
  if level = "low" then 0
  else if level = "moderate" then 3/10
  else if level = "high" then 6/10
  else if level = "critical" then 8/10
  else 0

/-- `get_risk_level` of app/main.py: convert a risk score to a risk level. -/
def get_risk_level (risk_score : ℚ) : String :=
  if risk_score < RISK_THRESHOLDS "moderate" then "low"
  else if risk_score < RISK_THRESHOLDS "high" then "moderate"
  else if risk_score < RISK_THRESHOLDS "critical" then "high"
  else "critical"

/-- Numeric rank of the four ordered severity levels, for stating
monotonicity of string-valued classifications. -/
def riskRank (level : String) : ℕ :=
  if level = "low" then 0
  else if level = "moderate" then 1
  else if level = "high" then 2
  else if level = "critical" then 3
  else 4

/-! ### Forecast service — app/services/forecast_service.py -/

/-- A point of a rainfall forecast as consumed by `forecast_flood_risk`
(only the `hours_ahead` and `rainfall_mm` keys are read). -/
structure RainfallForecastPoint where
  hours_ahead : ℤ
  rainfall_mm : ℚ
deriving DecidableEq, Inhabited

/-- A flood-risk forecast point emitted by `forecast_flood_risk`. -/
structure RiskForecastPoint where
  hours_ahead : ℤ
  cumulative_rainfall_mm : ℚ
  risk_level : String
  risk_score : ℚ
  rainfall_mm : ℚ
deriving DecidableEq, Inhabited

/-- The fixed cumulative-rain thresholds of `forecast_flood_risk`:
level and score as a function of the cumulative rainfall. -/
def riskFromCumulative (cumulative_rain : ℚ) : String × ℚ :=
  if cumulative_rain > 100 then ("critical", 9/10)
  else if cumulative_rain > 50 then ("high", 7/10)
  else if cumulative_rain > 25 then ("moderate", 1/2)
  else ("low", 3/10)

/-- The accumulation loop of `forecast_flood_risk`, carrying the running
`cumulative_rain`. -/
def forecastFloodRiskAux (cumulative_rain : ℚ) :
    List RainfallForecastPoint → List RiskForecastPoint
  | [] => []
  | f :: rest =>
    let c := cumulative_rain + f.rainfall_mm
    let rs := riskFromCumulative c
    { hours_ahead := f.hours_ahead
      cumulative_rainfall_mm := pyRound2 c
      risk_level := rs.1
      risk_score := rs.2
      rainfall_mm := f.rainfall_mm } :: forecastFloodRiskAux c rest

/-- `ForecastService.forecast_flood_risk` (the `current_conditions`
argument is unused by the Python code and omitted here). -/
def forecast_flood_risk (rainfall_forecast : List RainfallForecastPoint) :
    List RiskForecastPoint :=
  forecastFloodRiskAux 0 rainfall_forecast

/-- A rainfall forecast point as emitted by `forecast_rainfall`:
the persistence path carries a `"method": "persistence"` key that the
trained path does not, hence the `Option`. -/
structure ForecastPoint where
  hours_ahead : ℤ
  rainfall_mm : ℚ
  confidence : String
  method : Option String
deriving DecidableEq, Inhabited

/-- The mutable state of a `ForecastService` object: the trained flag,
the fitted scaler and linear-regression model (as opaque functions on the
5-entry feature vector), and the hour-of-day / day-of-year features of
`now + h` hours (functions of the horizon, `now` being fixed per call). -/
structure ForecastService where
  is_trained : Bool
  scale : List ℚ → List ℚ
  predict : List ℚ → ℚ
  hour_of_day : ℤ → ℤ
  day_of_year : ℤ → ℤ

/-- `ForecastService._persistence_forecast`: every future hour repeats
the current rainfall reading, rounded to two decimals. -/
def persistence_forecast (current_rain_mm : ℚ) (hours_ahead : ℤ) :
    List ForecastPoint :=
  (List.range hours_ahead.toNat).map (fun (h : ℕ) =>
    { hours_ahead := (h : ℤ) + 1
      rainfall_mm := pyRound2 current_rain_mm
      confidence := "low"
      method := some "persistence" })

/-- The trained-path loop of `forecast_rainfall`: autoregressive
projection, appending each prediction to the running history.  The fuel
counts the remaining hours; `hour` is the current horizon. -/
def trainedForecastLoop (svc : ForecastService) (last_rain : ℚ) :
    ℕ → ℤ → List ℚ → List ForecastPoint
  | 0, _, _ => []
  | Nat.succ k, hour, rain_history =>
    let rain_lag_1h := if rain_history.length ≥ 1 then rain_history.reverse.getD 0 0 else last_rain
    let rain_lag_3h := if rain_history.length ≥ 3 then rain_history.reverse.getD 2 0 else last_rain
    let rain_avg_6h := if rain_history.length ≥ 6 then (rain_history.reverse.take 6).sum / 6 else last_rain
    let features := [(svc.hour_of_day hour : ℚ), (svc.day_of_year hour : ℚ),
                     rain_lag_1h, rain_lag_3h, rain_avg_6h]
    let predicted_rain := max 0 (svc.predict (svc.scale features))
    { hours_ahead := hour
      rainfall_mm := pyRound2 predicted_rain
      confidence := "medium"
      method := none }
      :: trainedForecastLoop svc last_rain k (hour + 1) (rain_history ++ [predicted_rain])

/-- `ForecastService.forecast_rainfall`: persistence fallback when
untrained, autoregressive projection when trained. -/
def forecast_rainfall (svc : ForecastService) (current_rain_mm : ℚ)
    (hours_ahead : ℤ) : List ForecastPoint :=
  if svc.is_trained = false then
    persistence_forecast current_rain_mm hours_ahead
  else
    trainedForecastLoop svc current_rain_mm hours_ahead.toNat 1 [current_rain_mm]

/-! ### Anomaly detector — app/services/anomaly_detector.py -/

/-- The 5-field feature row read by `AnomalyDetector.detect`
(missing dict keys default to 0 in the Python code). -/
structure AnomalyInput where
  rain_mm : ℚ
  rain_sum_3h : ℚ
  rain_sum_24h : ℚ
  rain_max_3h : ℚ
  rain_trend : ℚ
deriving DecidableEq, Inhabited

/-- The verdict dictionary returned by `AnomalyDetector.detect`
(the wall-clock `timestamp` key of the trained path is not modelled). -/
structure AnomalyVerdict where
  anomaly_score : ℚ
  is_anomaly : Bool
  severity : String
  message : String
deriving DecidableEq, Inhabited

/-- The mutable state of an `AnomalyDetector` object: the fitted flag,
the fitted scaler and the isolation-forest scoring/prediction functions
(opaque, as they are runtime-fitted model data). -/
structure AnomalyDetector where
  is_fitted : Bool
  scale : List ℚ → List ℚ
  score_samples : List ℚ → ℚ
  predict : List ℚ → ℤ

/-- `AnomalyDetector.detect`: neutral verdict when unfitted, otherwise
score with the fitted model and grade severity. -/
def detect (d : AnomalyDetector) (current_data : AnomalyInput) : AnomalyVerdict :=
  if d.is_fitted = false then
    { anomaly_score := 0
      is_anomaly := false
      severity := "unknown"
      message := "Anomaly detector not trained" }
  else
    let features := d.scale [current_data.rain_mm, current_data.rain_sum_3h,
                             current_data.rain_sum_24h, current_data.rain_max_3h,
                             current_data.rain_trend]
    let anomaly_score := d.score_samples features
    let is_anomaly := d.predict features = -1
    if is_anomaly then
      if anomaly_score < -(1/2) then
        { anomaly_score := anomaly_score, is_anomaly := true, severity := "critical"
          message := "Extreme anomaly detected - unusual rainfall pattern" }
      else if anomaly_score < -(3/10) then
        { anomaly_score := anomaly_score, is_anomaly := true, severity := "high"
          message := "Significant anomaly detected - unusual rainfall pattern" }
      else
        { anomaly_score := anomaly_score, is_anomaly := true, severity := "moderate"
          message := "Moderate anomaly detected - unusual rainfall pattern" }
    else
      { anomaly_score := anomaly_score, is_anomaly := false, severity := "low"
        message := "Normal rainfall pattern" }

/-- The spike-verdict dictionary of `AnomalyDetector.detect_sudden_spike`
(its `recent_avg` key holds the possibly substituted average). -/
structure SpikeVerdict where
  is_spike : Bool
  spike_ratio : ℚ
  current_rain : ℚ
  recent_avg : ℚ
  threshold : ℚ
  severity : String
deriving DecidableEq, Inhabited

/-- `AnomalyDetector.detect_sudden_spike`: pure spike detection with a
division-by-zero guard substituting 0.1 for a zero recent average. -/
def detect_sudden_spike (current_rain recent_avg : ℚ) (threshold : ℚ) : SpikeVerdict :=
  let recent_avg' := if recent_avg = 0 then 1/10 else recent_avg
  let ratio := current_rain / recent_avg'
  let is_spike : Bool := ratio ≥ threshold
  { is_spike := is_spike
    spike_ratio := ratio
    current_rain := current_rain
    recent_avg := recent_avg'
    threshold := threshold
    severity := if ratio ≥ threshold * 2 then "high"
                else if is_spike then "moderate" else "low" }

/-! ### Rolling-window aggregation — app/services/data_collector.py
`DataCollector.collect_weather_data` -/

/-- A prior observation, keyed by its age relative to `now`
(`(now - obs.timestamp).total_seconds()`) and its rainfall. -/
structure Obs where
  age_s : ℚ
  rain_mm : ℚ
deriving DecidableEq, Inhabited

/-- The rainfall values of the observations no older than `w` seconds
(the `rain_values_*` list comprehensions of `collect_weather_data`). -/
def rainValuesWithin (recent_obs : List Obs) (w : ℚ) : List ℚ :=
  (recent_obs.filter (fun o => o.age_s ≤ w)).map (fun o => o.rain_mm)

/-- The rolling features computed by `collect_weather_data`. -/
structure RollingFeatures where
  rain_sum_1h : ℚ
  rain_sum_3h : ℚ
  rain_sum_6h : ℚ
  rain_sum_12h : ℚ
  rain_sum_24h : ℚ
  rain_max_3h : ℚ
  rain_max_6h : ℚ
deriving DecidableEq, Inhabited

/-- Python's `max(l, default=d)`: the maximum of a nonempty list,
the default on an empty one. -/
def pyMax (l : List ℚ) (d : ℚ) : ℚ :=
  match l with
  | [] => d
  | x :: xs => xs.foldl max x

/-- The rolling-sum/maximum block of `DataCollector.collect_weather_data`:
`recent_obs` is the DB query result (observations at most 24h old),
`rain_mm` the current instantaneous reading from the weather service. -/
def collect_rolling_features (recent_obs : List Obs) (rain_mm : ℚ) : RollingFeatures :=
  { rain_sum_1h := (rainValuesWithin recent_obs 3600).sum + rain_mm
    rain_sum_3h := (rainValuesWithin recent_obs 10800).sum + rain_mm
    rain_sum_6h := (rainValuesWithin recent_obs 21600).sum + rain_mm
    rain_sum_12h := (rainValuesWithin recent_obs 43200).sum + rain_mm
    rain_sum_24h := (recent_obs.map (fun o => o.rain_mm)).sum + rain_mm
    rain_max_3h := pyMax (rainValuesWithin recent_obs 10800 ++ [rain_mm]) 0
    rain_max_6h := pyMax (rainValuesWithin recent_obs 21600 ++ [rain_mm]) 0 }

/-- Running sum of the first `i+1` forecast rainfalls: the value of
`cumulative_rain` at the `i`-th step of `forecast_flood_risk`. -/
def cumAt (l : List RainfallForecastPoint) (i : ℕ) : ℚ :=
  ((l.take (i + 1)).map (fun p => p.rainfall_mm)).sum

/-! ### Feature engineering — src/feature_engineering.py

Numeric columns are reals here because `rain_variability` takes a square
root.  Real division in Lean is total with `x / 0 = 0`, which coincides
with the final value produced by the Python code, where a division by
zero yields `±inf`/`NaN` and the trailing `fillna(0)` /
`replace([inf, -inf], 0)` steps turn it into 0; those trailing steps are
therefore the identity in this model. -/

/-- The fields of a pandas timestamp read by `add_temporal_features`. -/
structure PyTimestamp where
  hour : ℤ
  day_of_year : ℤ
  month : ℤ
deriving DecidableEq

/-- The base input columns of a feature row (`timestamp` optional:
`add_temporal_features` branches on its presence). -/
structure FeatureRow where
  timestamp : Option PyTimestamp
  rain_mm : ℝ
  rain_sum_1h : ℝ
  rain_sum_3h : ℝ
  rain_sum_6h : ℝ
  rain_sum_12h : ℝ
  rain_sum_24h : ℝ
  rain_max_3h : ℝ
  rain_max_6h : ℝ
  drainage_score : ℝ
  slope_pct : ℝ
  elevation_m : ℝ
  temp_c : ℝ
  humidity_pct : ℝ

/-- The columns added by `engineer_features` (without the optional lag
features, i.e. with the default `include_lags=False`). -/
structure DerivedFeatures where
  hour : ℤ
  day_of_year : ℤ
  month : ℤ
  is_monsoon : ℤ
  rain_intensity : ℝ
  drainage_effectiveness : ℝ
  temp_humidity_interaction : ℝ
  cumulative_risk : ℝ
  elevation_risk : ℝ
  rain_variability : ℝ
  rain_trend : ℝ
  rain_spike : ℝ

/-- The derived-column formulas of `add_temporal_features`,
`add_interaction_features` and `add_statistical_features`; each reads
only base columns.  `rain_variability` is the pandas row-wise `std`
(sample standard deviation, `ddof=1`) of the three rolling sums. -/
noncomputable def computeDerived (row : FeatureRow) : DerivedFeatures :=
  let m := (row.rain_sum_1h + row.rain_sum_3h + row.rain_sum_6h) / 3
  { hour := match row.timestamp with
            | some ts => ts.hour
            | none => 12
    day_of_year := match row.timestamp with
                   | some ts => ts.day_of_year
                   | none => 180
    month := match row.timestamp with
             | some ts => ts.month
             | none => 7
    is_monsoon := match row.timestamp with
                  | some ts => if ts.month ∈ ([6, 7, 8, 9, 10, 11] : List ℤ) then 1 else 0
                  | none => 1
    rain_intensity := row.rain_mm * row.rain_sum_3h
    drainage_effectiveness := row.drainage_score * (1 - row.slope_pct / 100)
    temp_humidity_interaction := row.temp_c * row.humidity_pct
    cumulative_risk := row.rain_sum_24h * (1 - row.drainage_score)
    elevation_risk := (100 - row.elevation_m) / 100
    rain_variability := Real.sqrt (((row.rain_sum_1h - m) ^ 2 + (row.rain_sum_3h - m) ^ 2
                          + (row.rain_sum_6h - m) ^ 2) / 2)
    rain_trend := (row.rain_sum_3h - row.rain_sum_12h) / (row.rain_sum_12h + 1)
    rain_spike := row.rain_max_3h / (row.rain_sum_3h / 3 + 1/10) }

/-- A data frame row holding both the base columns and the derived
columns (the shape of an already-enriched row). -/
structure EnrichedRow where
  base : FeatureRow
  derived : DerivedFeatures

/-- `engineer_features` applied to a row that does not yet carry the
derived columns. -/
noncomputable def engineer_features_row (row : FeatureRow) : EnrichedRow :=
  { base := row, derived := computeDerived row }

/-- `engineer_features` applied to a row already carrying the derived
columns: the base columns pass through unchanged and every derived
column is recomputed (overwritten) from the base columns. -/
noncomputable def engineer_features (df : EnrichedRow) : EnrichedRow :=
  { base := df.base, derived := computeDerived df.base }

/-! ## Helper lemmas -/

theorem get_risk_level_eq (s : ℚ) :
    get_risk_level s =
      if s < 3/10 then "low"
      else if s < 6/10 then "moderate"
      else if s < 8/10 then "high"
      else "critical" := by
  simp [get_risk_level, RISK_THRESHOLDS]

theorem roundHalfEven_intCast (k : ℤ) : roundHalfEven (k : ℚ) = k := by
  simp [roundHalfEven]

theorem pyRound2_hundredth (k : ℤ) : pyRound2 ((k : ℚ) / 100) = (k : ℚ) / 100 := by
  unfold pyRound2
  rw [show (100 : ℚ) * ((k : ℚ) / 100) = (k : ℚ) by field_simp, roundHalfEven_intCast]

theorem roundHalfEven_mono {q r : ℚ} (h : q ≤ r) : roundHalfEven q ≤ roundHalfEven r := by
  have hf : ⌊q⌋ ≤ ⌊r⌋ := Int.floor_le_floor h
  rcases lt_or_eq_of_le hf with hlt | heq
  · unfold roundHalfEven; split_ifs <;> omega
  · have heq' : ((⌊q⌋ : ℚ)) = ((⌊r⌋ : ℚ)) := by exact_mod_cast heq
    unfold roundHalfEven
    split_ifs <;> first | omega | (exfalso; linarith)

theorem pyRound2_mono {q r : ℚ} (h : q ≤ r) : pyRound2 q ≤ pyRound2 r := by
  unfold pyRound2
  have h1 : roundHalfEven (100 * q) ≤ roundHalfEven (100 * r) :=
    roundHalfEven_mono (by linarith)
  have h2 : ((roundHalfEven (100 * q) : ℚ)) ≤ (roundHalfEven (100 * r) : ℚ) := by
    exact_mod_cast h1
  exact div_le_div_of_nonneg_right h2 (by norm_num)

theorem pyRound2_milli : pyRound2 (1/1000) = 0 := by
  unfold pyRound2 roundHalfEven
  norm_num

theorem pyRound2_thirty : pyRound2 30 = 30 := by
  have h := pyRound2_hundredth 3000
  norm_num at h
  exact h

theorem cumAt_cons_succ (f : RainfallForecastPoint) (rest : List RainfallForecastPoint) (k : ℕ) :
    cumAt (f :: rest) (k + 1) = f.rainfall_mm + cumAt rest k := by
  simp [cumAt, List.take_succ_cons]

theorem sum_take_mono {m : List ℚ} (hm : ∀ x ∈ m, 0 ≤ x) {i j : ℕ} (hij : i ≤ j) :
    (m.take i).sum ≤ (m.take j).sum := by
  have h1 : (m.take j).take i = m.take i := by rw [List.take_take, min_eq_left hij]
  have h2 : (m.take j).take i ++ (m.take j).drop i = m.take j := List.take_append_drop _ _
  have h3 : 0 ≤ ((m.take j).drop i).sum :=
    List.sum_nonneg (fun x hx => hm x (List.take_subset _ _ (List.drop_subset _ _ hx)))
  calc (m.take i).sum = ((m.take j).take i).sum := by rw [h1]
    _ ≤ ((m.take j).take i).sum + ((m.take j).drop i).sum := by linarith
    _ = (m.take j).sum := by rw [← List.sum_append, h2]

theorem cumAt_mono (l : List RainfallForecastPoint) (hnn : ∀ p ∈ l, 0 ≤ p.rainfall_mm)
    {i j : ℕ} (hij : i ≤ j) : cumAt l i ≤ cumAt l j := by
  unfold cumAt
  rw [List.map_take, List.map_take]
  refine sum_take_mono ?_ (by omega)
  intro x hx
  rcases List.mem_map.mp hx with ⟨p, hpmem, rfl⟩
  exact hnn p hpmem

theorem forecastFloodRiskAux_length (cum : ℚ) (l : List RainfallForecastPoint) :
    (forecastFloodRiskAux cum l).length = l.length := by
  induction l generalizing cum with
  | nil => rfl
  | cons f rest ih => simp [forecastFloodRiskAux, ih]

theorem forecastFloodRiskAux_getD (cum : ℚ) (l : List RainfallForecastPoint)
    (i : ℕ) (hi : i < l.length) :
    (forecastFloodRiskAux cum l).getD i default =
      { hours_ahead := (l.getD i default).hours_ahead
        cumulative_rainfall_mm := pyRound2 (cum + cumAt l i)
        risk_level := (riskFromCumulative (cum + cumAt l i)).1
        risk_score := (riskFromCumulative (cum + cumAt l i)).2
        rainfall_mm := (l.getD i default).rainfall_mm } := by
  induction l generalizing cum i with
  | nil => simp at hi
  | cons f rest ih =>
    cases i with
    | zero =>
      simp [forecastFloodRiskAux, cumAt]
    | succ k =>
      have hk : k < rest.length := by simpa using hi
      have h2 := ih (cum + f.rainfall_mm) k hk
      calc (forecastFloodRiskAux cum (f :: rest)).getD (k + 1) default
          = (forecastFloodRiskAux (cum + f.rainfall_mm) rest).getD k default := by
            simp [forecastFloodRiskAux]
        _ = _ := by rw [h2]; simp [cumAt_cons_succ, List.getD_cons_succ, add_assoc]

theorem riskFromCumulative_rank_mono {c d : ℚ} (h : c ≤ d) :
    riskRank (riskFromCumulative c).1 ≤ riskRank (riskFromCumulative d).1 := by
  unfold riskFromCumulative
  split_ifs <;> simp [riskRank] <;> linarith

theorem mem_forecastFloodRiskAux {p : RiskForecastPoint} {cum : ℚ}
    {l : List RainfallForecastPoint} (hp : p ∈ forecastFloodRiskAux cum l) :
    ∃ c : ℚ, p.risk_level = (riskFromCumulative c).1
      ∧ p.risk_score = (riskFromCumulative c).2 := by
  induction l generalizing cum with
  | nil => simp [forecastFloodRiskAux] at hp
  | cons f rest ih =>
    simp only [forecastFloodRiskAux, List.mem_cons] at hp
    rcases hp with h | h
    · exact ⟨cum + f.rainfall_mm, by rw [h], by rw [h]⟩
    · exact ih h

theorem hundredth_sum {m : List ℚ} (hm : ∀ x ∈ m, ∃ k : ℤ, x = (k : ℚ) / 100) :
    ∃ K : ℤ, m.sum = (K : ℚ) / 100 := by
  induction m with
  | nil => exact ⟨0, by simp⟩
  | cons x xs ih =>
    rcases hm x (List.mem_cons_self _ _) with ⟨k, hk⟩
    rcases ih (fun y hy => hm y (List.mem_cons_of_mem _ hy)) with ⟨K, hK⟩
    refine ⟨k + K, ?_⟩
    rw [List.sum_cons, hk, hK]
    push_cast
    ring

/-! ## The claims -/

/-- C1: `get_risk_level` returns "low" below 0.3, "moderate" on
[0.3, 0.6), "high" on [0.6, 0.8) and "critical" from 0.8 on; it is
monotone non-decreasing in the score, and the four boundary values
0, 0.3, 0.6, 0.8 classify as "low", "moderate", "high", "critical"
(boundaries inclusive upward). -/
theorem C1_risk_classifier :
    (∀ s : ℚ, (s < 3/10 → get_risk_level s = "low")
      ∧ (3/10 ≤ s → s < 6/10 → get_risk_level s = "moderate")
      ∧ (6/10 ≤ s → s < 8/10 → get_risk_level s = "high")
      ∧ (8/10 ≤ s → get_risk_level s = "critical"))
    ∧ (∀ s t : ℚ, s ≤ t → riskRank (get_risk_level s) ≤ riskRank (get_risk_level t))
    ∧ get_risk_level 0 = "low" ∧ get_risk_level (3/10) = "moderate"
    ∧ get_risk_level (6/10) = "high" ∧ get_risk_level (8/10) = "critical" := by
  refine ⟨?_, ?_, ?_, ?_, ?_, ?_⟩
  · intro s
    refine ⟨fun h => ?_, fun h1 h2 => ?_, fun h1 h2 => ?_, fun h => ?_⟩ <;>
      rw [get_risk_level_eq] <;> split_ifs <;> first | rfl | linarith
  · intro s t hst
    rw [get_risk_level_eq, get_risk_level_eq]
    split_ifs <;> simp [riskRank] <;> linarith
  · rw [get_risk_level_eq]; norm_num
  · rw [get_risk_level_eq]; norm_num
  · rw [get_risk_level_eq]; norm_num
  · rw [get_risk_level_eq]; norm_num

/-- C1 witness: the classifier evaluated at concrete scores through
`C1_risk_classifier`. -/
theorem C1_risk_classifier_witness :
    get_risk_level (1/10) = "low"
    ∧ riskRank (get_risk_level (1/10)) ≤ riskRank (get_risk_level (7/10)) :=
  ⟨(C1_risk_classifier.1 (1/10)).1 (by norm_num),
   C1_risk_classifier.2.1 (1/10) (7/10) (by norm_num)⟩

/-- C2 counterexample: with the single forecast point carrying
rainfall 0.001 mm (non-negative), the emitted `cumulative_rainfall_mm`
is 0 — `round(cumulative, 2)` — not the running sum 0.001, so the claim
as stated fails. -/
theorem C2_counterexample :
    (0 : ℚ) ≤ 1/1000
    ∧ (forecast_flood_risk [{ hours_ahead := 1, rainfall_mm := 1/1000 }]).map
        (fun p => p.cumulative_rainfall_mm) ≠ [1/1000] := by
  refine ⟨by norm_num, ?_⟩
  have h : (forecast_flood_risk [({ hours_ahead := 1, rainfall_mm := 1/1000 } :
        RainfallForecastPoint)]).map (fun p => p.cumulative_rainfall_mm)
      = [pyRound2 (0 + 1/1000)] := by
    simp [forecast_flood_risk, forecastFloodRiskAux]
  rw [h, zero_add, pyRound2_milli]
  norm_num

/-- C2 (amended): `forecast_flood_risk` emits one point per input point;
the `i`-th point carries the input's `hours_ahead` and `rainfall_mm`,
its `cumulative_rainfall_mm` is the running sum of the first `i+1`
rainfalls rounded to two decimals (equal to the exact running sum
whenever every input rainfall is a whole multiple of 0.01 mm, as the
points produced by `forecast_rainfall` are), and its
`(risk_level, risk_score)` is determined by the unrounded running sum:
>100 → ("critical", 0.9), >50 → ("high", 0.7), >25 → ("moderate", 0.5),
else ("low", 0.3).  For non-negative rainfalls the emitted cumulative
value and the risk level are monotone non-decreasing along the
sequence. -/
theorem C2_forecast_flood_risk (l : List RainfallForecastPoint)
    (hnn : ∀ p ∈ l, 0 ≤ p.rainfall_mm) :
    (forecast_flood_risk l).length = l.length
    ∧ (∀ i, i < l.length →
        (forecast_flood_risk l).getD i default =
          { hours_ahead := (l.getD i default).hours_ahead
            cumulative_rainfall_mm := pyRound2 (cumAt l i)
            risk_level := (riskFromCumulative (cumAt l i)).1
            risk_score := (riskFromCumulative (cumAt l i)).2
            rainfall_mm := (l.getD i default).rainfall_mm })
    ∧ ((∀ p ∈ l, ∃ k : ℤ, p.rainfall_mm = (k : ℚ) / 100) →
        ∀ i, pyRound2 (cumAt l i) = cumAt l i)
    ∧ (∀ i j, i ≤ j → j < l.length →
        ((forecast_flood_risk l).getD i default).cumulative_rainfall_mm ≤
          ((forecast_flood_risk l).getD j default).cumulative_rainfall_mm
        ∧ riskRank ((forecast_flood_risk l).getD i default).risk_level ≤
            riskRank ((forecast_flood_risk l).getD j default).risk_level) := by
  have hget : ∀ i, i < l.length →
      (forecast_flood_risk l).getD i default =
        { hours_ahead := (l.getD i default).hours_ahead
          cumulative_rainfall_mm := pyRound2 (cumAt l i)
          risk_level := (riskFromCumulative (cumAt l i)).1
          risk_score := (riskFromCumulative (cumAt l i)).2
          rainfall_mm := (l.getD i default).rainfall_mm } := by
    intro i hi
    have h := forecastFloodRiskAux_getD 0 l i hi
    simpa [forecast_flood_risk] using h
  refine ⟨?_, hget, ?_, ?_⟩
  · simpa [forecast_flood_risk] using forecastFloodRiskAux_length 0 l
  · intro hq i
    have hmem : ∀ x ∈ (l.take (i + 1)).map (fun p => p.rainfall_mm),
        ∃ k : ℤ, x = (k : ℚ) / 100 := by
      intro x hx
      rcases List.mem_map.mp hx with ⟨p, hpmem, rfl⟩
      exact hq p (List.take_subset _ _ hpmem)
    rcases hundredth_sum hmem with ⟨K, hK⟩
    simp only [cumAt]
    rw [hK, pyRound2_hundredth]
  · intro i j hij hj
    have hi : i < l.length := lt_of_le_of_lt hij hj
    rw [hget i hi, hget j hj]
    exact ⟨pyRound2_mono (cumAt_mono l hnn hij),
           riskFromCumulative_rank_mono (cumAt_mono l hnn hij)⟩

/-- C2 witness: on the 2-decimal forecast [10mm, 20mm] the second point
accumulates exactly 30mm and classifies as ("moderate", 0.5). -/
theorem C2_forecast_flood_risk_witness :
    (forecast_flood_risk [{ hours_ahead := 1, rainfall_mm := 10 },
                          { hours_ahead := 2, rainfall_mm := 20 }]).length = 2
    ∧ (forecast_flood_risk [{ hours_ahead := 1, rainfall_mm := 10 },
                            { hours_ahead := 2, rainfall_mm := 20 }]).getD 1 default =
        { hours_ahead := 2, cumulative_rainfall_mm := 30, risk_level := "moderate",
          risk_score := 1/2, rainfall_mm := 20 } := by
  have h := C2_forecast_flood_risk
      [{ hours_ahead := 1, rainfall_mm := 10 }, { hours_ahead := 2, rainfall_mm := 20 }]
      (by
        intro p hp
        simp only [List.mem_cons, List.not_mem_nil, or_false] at hp
        rcases hp with rfl | rfl <;> norm_num)
  refine ⟨by rw [h.1]; rfl, ?_⟩
  rw [h.2.1 1 (by norm_num)]
  have hc : cumAt [({ hours_ahead := 1, rainfall_mm := 10 } : RainfallForecastPoint),
                   { hours_ahead := 2, rainfall_mm := 20 }] 1 = 30 := by
    norm_num [cumAt]
  have hrc : riskFromCumulative 30 = ("moderate", 1/2) := by
    unfold riskFromCumulative
    norm_num
  rw [hc, hrc, pyRound2_thirty]
  rfl

/-- C3 counterexample: the point emitted for a single 0mm forecast has
risk_score 0.3 and risk_level "low", but `get_risk_level 0.3` is
"moderate" (its 0.3 boundary is inclusive upward), so tier derivation is
not consistent between `forecast_flood_risk` and `get_risk_level`. -/
theorem C3_counterexample :
    ∃ p ∈ forecast_flood_risk [{ hours_ahead := 1, rainfall_mm := 0 }],
      get_risk_level p.risk_score ≠ p.risk_level := by
  refine ⟨{ hours_ahead := 1, cumulative_rainfall_mm := 0, risk_level := "low",
            risk_score := 3/10, rainfall_mm := 0 }, ?_, ?_⟩
  · have h : forecast_flood_risk [({ hours_ahead := 1, rainfall_mm := 0 } :
        RainfallForecastPoint)]
        = [{ hours_ahead := 1, cumulative_rainfall_mm := 0, risk_level := "low",
             risk_score := 3/10, rainfall_mm := 0 }] := by
      simp [forecast_flood_risk, forecastFloodRiskAux, riskFromCumulative, pyRound2,
        roundHalfEven]
      norm_num
    rw [h]
    simp
  · rw [get_risk_level_eq]
    norm_num
    decide

/-- C3 (amended): for every point emitted by `forecast_flood_risk`,
applying `get_risk_level` to its risk_score reproduces its risk_level
for the "moderate" (0.5), "high" (0.7) and "critical" (0.9) tiers; the
"low" tier is the one exception: its risk_score is 0.3, which
`get_risk_level` classifies as "moderate". -/
theorem C3_risk_tier_consistency (l : List RainfallForecastPoint) (p : RiskForecastPoint)
    (hp : p ∈ forecast_flood_risk l) :
    (p.risk_level ≠ "low" → get_risk_level p.risk_score = p.risk_level)
    ∧ (p.risk_level = "low" →
        p.risk_score = 3/10 ∧ get_risk_level p.risk_score = "moderate") := by
  rcases mem_forecastFloodRiskAux
      (show p ∈ forecastFloodRiskAux 0 l by simpa [forecast_flood_risk] using hp)
    with ⟨c, hl, hs⟩
  unfold riskFromCumulative at hl hs
  split_ifs at hl hs <;> simp only at hl hs
  · exact ⟨fun _ => by rw [hs, hl, get_risk_level_eq]; norm_num,
           fun hlow => by rw [hl] at hlow; simp at hlow⟩
  · exact ⟨fun _ => by rw [hs, hl, get_risk_level_eq]; norm_num,
           fun hlow => by rw [hl] at hlow; simp at hlow⟩
  · exact ⟨fun _ => by rw [hs, hl, get_risk_level_eq]; norm_num,
           fun hlow => by rw [hl] at hlow; simp at hlow⟩
  · exact ⟨fun hne => absurd hl hne,
           fun _ => ⟨hs, by rw [hs, get_risk_level_eq]; norm_num⟩⟩

/-- C3 witness: the "moderate" point for a single 30mm forecast is
classified consistently by `get_risk_level`, through
`C3_risk_tier_consistency`. -/
theorem C3_risk_tier_consistency_witness :
    get_risk_level (1/2) = "moderate" := by
  have hlist : forecast_flood_risk [({ hours_ahead := 1, rainfall_mm := 30 } :
      RainfallForecastPoint)]
      = [{ hours_ahead := 1, cumulative_rainfall_mm := 30, risk_level := "moderate",
           risk_score := 1/2, rainfall_mm := 30 }] := by
    simp [forecast_flood_risk, forecastFloodRiskAux, riskFromCumulative, pyRound2,
      roundHalfEven]
    norm_num
  have h := C3_risk_tier_consistency [{ hours_ahead := 1, rainfall_mm := 30 }]
      { hours_ahead := 1, cumulative_rainfall_mm := 30, risk_level := "moderate",
        risk_score := 1/2, rainfall_mm := 30 }
      (by rw [hlist]; simp)
  exact h.1 (by decide)


/-- C4: `detect` on an unfitted detector returns the neutral verdict
(score 0, not anomalous, severity "unknown") for every input row, and the
result is independent of the model, scaler and input (the model is never
consulted). -/
theorem C4_detect_untrained (d : AnomalyDetector) (row : AnomalyInput)
    (h : d.is_fitted = false) :
    detect d row =
      { anomaly_score := 0, is_anomaly := false, severity := "unknown",
        message := "Anomaly detector not trained" }
    ∧ (∀ (d' : AnomalyDetector) (row' : AnomalyInput), d'.is_fitted = false →
        detect d row = detect d' row') := by
  have key : ∀ (e : AnomalyDetector) (r : AnomalyInput), e.is_fitted = false →
      detect e r =
        { anomaly_score := 0, is_anomaly := false, severity := "unknown",
          message := "Anomaly detector not trained" } := by
    intro e r he
    simp [detect, he]
  exact ⟨key d row h, fun d' row' h' => by rw [key d row h, key d' row' h']⟩

/-- C4 witness: a concrete unfitted detector on a concrete row, through
`C4_detect_untrained`. -/
theorem C4_detect_untrained_witness :
    detect { is_fitted := false, scale := id, score_samples := fun _ => 0,
             predict := fun _ => 0 }
        { rain_mm := 5, rain_sum_3h := 9, rain_sum_24h := 30, rain_max_3h := 5,
          rain_trend := 0 } =
      { anomaly_score := 0, is_anomaly := false, severity := "unknown",
        message := "Anomaly detector not trained" } :=
  (C4_detect_untrained _ _ rfl).1

theorem persistence_forecast_length (c : ℚ) (n : ℤ) :
    (persistence_forecast c n).length = n.toNat := by
  unfold persistence_forecast
  rw [List.length_map, List.length_range]

theorem persistence_forecast_getD (c : ℚ) (n : ℤ) (i : ℕ) (hi : i < n.toNat) :
    (persistence_forecast c n).getD i default =
      { hours_ahead := (i : ℤ) + 1, rainfall_mm := pyRound2 c,
        confidence := "low", method := some "persistence" } := by
  have hlen : i < (persistence_forecast c n).length := by
    rw [persistence_forecast_length]
    exact hi
  rw [List.getD_eq_getElem _ _ hlen]
  unfold persistence_forecast
  rw [List.getElem_map, List.getElem_range]

/-- C5 counterexample: on an untrained engine with current reading
0.001mm, the single emitted point carries `round(0.001, 2) = 0.0`, not
the current reading, so exact equality fails. -/
theorem C5_counterexample :
    (forecast_rainfall
        { is_trained := false, scale := id, predict := fun _ => 0,
          hour_of_day := fun _ => 0, day_of_year := fun _ => 0 } (1/1000) 1).map
      (fun p => p.rainfall_mm) ≠ [1/1000] := by
  have h : (forecast_rainfall
      { is_trained := false, scale := id, predict := fun _ => 0,
        hour_of_day := fun _ => 0, day_of_year := fun _ => 0 } (1/1000) 1).map
      (fun p => p.rainfall_mm) = [pyRound2 (1/1000)] := by
    have hfr : forecast_rainfall
        { is_trained := false, scale := id, predict := fun _ => 0,
          hour_of_day := fun _ => 0, day_of_year := fun _ => 0 } (1/1000) 1
        = persistence_forecast (1/1000) 1 := by
      simp [forecast_rainfall]
    rw [hfr]
    rfl
  rw [h, pyRound2_milli]
  norm_num

/-- C5 (amended): on an untrained engine, `forecast_rainfall` returns
exactly `hours_ahead` points; the `i`-th has hours_ahead `i+1` (so the
fields run 1, 2, ..., hours_ahead in order), confidence "low", method
"persistence", and rainfall equal to the current reading rounded to two
decimals (equal to the reading itself whenever it is a whole multiple of
0.01 mm). -/
theorem C5_persistence (svc : ForecastService) (current_rain_mm : ℚ) (n : ℤ)
    (hu : svc.is_trained = false) (hn : 1 ≤ n) :
    ((forecast_rainfall svc current_rain_mm n).length : ℤ) = n
    ∧ (∀ i, i < n.toNat →
        (forecast_rainfall svc current_rain_mm n).getD i default =
          { hours_ahead := (i : ℤ) + 1, rainfall_mm := pyRound2 current_rain_mm,
            confidence := "low", method := some "persistence" })
    ∧ ((∃ k : ℤ, current_rain_mm = (k : ℚ) / 100) →
        pyRound2 current_rain_mm = current_rain_mm) := by
  have hfr : forecast_rainfall svc current_rain_mm n
      = persistence_forecast current_rain_mm n := by
    simp [forecast_rainfall, hu]
  refine ⟨?_, ?_, ?_⟩
  · rw [hfr, persistence_forecast_length]
    omega
  · intro i hi
    rw [hfr]
    exact persistence_forecast_getD _ _ _ hi
  · rintro ⟨k, rfl⟩
    exact pyRound2_hundredth k

/-- C5 witness: an untrained engine with current reading 2mm over 2
hours, through `C5_persistence`. -/
theorem C5_persistence_witness :
    ((forecast_rainfall
        { is_trained := false, scale := id, predict := fun _ => 0,
          hour_of_day := fun _ => 0, day_of_year := fun _ => 0 } 2 2).length : ℤ) = 2
    ∧ (forecast_rainfall
        { is_trained := false, scale := id, predict := fun _ => 0,
          hour_of_day := fun _ => 0, day_of_year := fun _ => 0 } 2 2).getD 0 default =
        { hours_ahead := 1, rainfall_mm := 2, confidence := "low",
          method := some "persistence" } := by
  have h := C5_persistence
      { is_trained := false, scale := id, predict := fun _ => 0,
        hour_of_day := fun _ => 0, day_of_year := fun _ => 0 } 2 2 rfl (by norm_num)
  refine ⟨h.1, ?_⟩
  rw [h.2.1 0 (by decide)]
  have h2 : pyRound2 2 = 2 := by
    have hk := pyRound2_hundredth 200
    norm_num at hk
    exact hk
  rw [h2]
  norm_num

/-- C10: for every `hours_ahead ≤ 0`, `forecast_rainfall` returns the
empty list on both the trained and the untrained path: the per-hour
loop ranges over 1..hours_ahead and never executes. -/
theorem C10_nonpositive_hours (svc : ForecastService) (current_rain_mm : ℚ)
    (hours_ahead : ℤ) (h : hours_ahead ≤ 0) :
    forecast_rainfall svc current_rain_mm hours_ahead = [] := by
  have h0 : hours_ahead.toNat = 0 := Int.toNat_of_nonpos h
  by_cases ht : svc.is_trained = false
  · simp [forecast_rainfall, ht, persistence_forecast, h0]
  · simp [forecast_rainfall, ht, h0, trainedForecastLoop]

/-- C10 witness: a trained engine asked for -2 hours and an untrained
engine asked for 0 hours, through `C10_nonpositive_hours`. -/
theorem C10_nonpositive_hours_witness :
    forecast_rainfall
      { is_trained := true, scale := id, predict := fun _ => 0,
        hour_of_day := fun _ => 0, day_of_year := fun _ => 0 } 5 (-2) = []
    ∧ forecast_rainfall
      { is_trained := false, scale := id, predict := fun _ => 0,
        hour_of_day := fun _ => 0, day_of_year := fun _ => 0 } 5 0 = [] :=
  ⟨C10_nonpositive_hours _ _ _ (by norm_num), C10_nonpositive_hours _ _ _ (by norm_num)⟩


/-- C6: `detect_sudden_spike` is a pure function: a zero recent average
is replaced by 0.1; the spike ratio is the current rainfall divided by
the (possibly substituted) average; `is_spike` holds iff the ratio is at
least the threshold; severity is "high" iff the ratio is at least twice
the threshold, else "moderate" iff it is a spike, else "low"; and at
current=3, recent_avg=0, threshold=2 the ratio is 30, a "high" spike. -/
theorem C6_detect_sudden_spike :
    (∀ c a t : ℚ, (detect_sudden_spike c a t).spike_ratio
        = c / (if a = 0 then 1/10 else a))
    ∧ (∀ c a t : ℚ, a = 0 → (detect_sudden_spike c a t).recent_avg = 1/10)
    ∧ (∀ c a t : ℚ, a ≠ 0 → (detect_sudden_spike c a t).recent_avg = a)
    ∧ (∀ c a t : ℚ, ((detect_sudden_spike c a t).is_spike = true
        ↔ t ≤ (detect_sudden_spike c a t).spike_ratio))
    ∧ (∀ c a t : ℚ,
        ((detect_sudden_spike c a t).severity = "high"
          ↔ 2 * t ≤ (detect_sudden_spike c a t).spike_ratio)
        ∧ ((detect_sudden_spike c a t).severity = "moderate"
          ↔ (t ≤ (detect_sudden_spike c a t).spike_ratio
              ∧ (detect_sudden_spike c a t).spike_ratio < 2 * t))
        ∧ ((detect_sudden_spike c a t).severity = "low"
          ↔ ((detect_sudden_spike c a t).spike_ratio < t
              ∧ (detect_sudden_spike c a t).spike_ratio < 2 * t)))
    ∧ detect_sudden_spike 3 0 2 =
        { is_spike := true, spike_ratio := 30, current_rain := 3, recent_avg := 1/10,
          threshold := 2, severity := "high" } := by
  refine ⟨fun c a t => rfl, fun c a t ha => by simp [detect_sudden_spike, ha],
    fun c a t ha => by simp [detect_sudden_spike, ha], fun c a t => ?_, fun c a t => ?_, ?_⟩
  · simp [detect_sudden_spike, ge_iff_le]
  · simp only [detect_sudden_spike, ge_iff_le, decide_eq_true_eq]
    split_ifs <;>
      refine ⟨?_, ?_, ?_⟩ <;>
        first
          | exact iff_of_true rfl (by linarith)
          | exact iff_of_true rfl ⟨by linarith, by linarith⟩
          | exact iff_of_false (by decide) (by intro hx; linarith)
  · unfold detect_sudden_spike
    norm_num

/-- C6 witness: the zero-average guard and the pass-through average at
concrete inputs, through `C6_detect_sudden_spike`. -/
theorem C6_detect_sudden_spike_witness :
    (detect_sudden_spike 3 0 2).recent_avg = 1/10
    ∧ (detect_sudden_spike 5 2 2).recent_avg = 2 :=
  ⟨C6_detect_sudden_spike.2.1 3 0 2 rfl,
   C6_detect_sudden_spike.2.2.1 5 2 2 (by norm_num)⟩


/-- C7: with no prior observations, every rolling sum equals the current
instantaneous reading and both rolling maxima equal it; in particular at
r = 5 every field is 5. -/
theorem C7_empty_history :
    (∀ r : ℚ, collect_rolling_features [] r =
      { rain_sum_1h := r, rain_sum_3h := r, rain_sum_6h := r, rain_sum_12h := r,
        rain_sum_24h := r, rain_max_3h := r, rain_max_6h := r })
    ∧ collect_rolling_features [] 5 =
      { rain_sum_1h := 5, rain_sum_3h := 5, rain_sum_6h := 5, rain_sum_12h := 5,
        rain_sum_24h := 5, rain_max_3h := 5, rain_max_6h := 5 } := by
  have key : ∀ r : ℚ, collect_rolling_features [] r =
      { rain_sum_1h := r, rain_sum_3h := r, rain_sum_6h := r, rain_sum_12h := r,
        rain_sum_24h := r, rain_max_3h := r, rain_max_6h := r } := by
    intro r
    simp [collect_rolling_features, rainValuesWithin, pyMax]
  exact ⟨key, key 5⟩

theorem sum_rainValuesWithin_mono (obs : List Obs) (hnn : ∀ o ∈ obs, 0 ≤ o.rain_mm)
    {w1 w2 : ℚ} (hw : w1 ≤ w2) :
    (rainValuesWithin obs w1).sum ≤ (rainValuesWithin obs w2).sum := by
  induction obs with
  | nil => simp [rainValuesWithin]
  | cons o os ih =>
    have hnn' : ∀ x ∈ os, 0 ≤ x.rain_mm := fun x hx => hnn x (List.mem_cons_of_mem _ hx)
    have h0 : 0 ≤ o.rain_mm := hnn o (List.mem_cons_self _ _)
    have ihs := ih hnn'
    by_cases h1 : o.age_s ≤ w1
    · have h2 : o.age_s ≤ w2 := le_trans h1 hw
      simp [rainValuesWithin, List.filter_cons, h1, h2] at ihs ⊢
      linarith
    · by_cases h2 : o.age_s ≤ w2
      · simp [rainValuesWithin, List.filter_cons, h1, h2] at ihs ⊢
        linarith
      · simp [rainValuesWithin, List.filter_cons, h1, h2] at ihs ⊢
        linarith

theorem sum_rainValuesWithin_le_total (obs : List Obs)
    (hnn : ∀ o ∈ obs, 0 ≤ o.rain_mm) (w : ℚ) :
    (rainValuesWithin obs w).sum ≤ (obs.map (fun o => o.rain_mm)).sum := by
  induction obs with
  | nil => simp [rainValuesWithin]
  | cons o os ih =>
    have hnn' : ∀ x ∈ os, 0 ≤ x.rain_mm := fun x hx => hnn x (List.mem_cons_of_mem _ hx)
    have h0 : 0 ≤ o.rain_mm := hnn o (List.mem_cons_self _ _)
    have ihs := ih hnn'
    by_cases h1 : o.age_s ≤ w
    · simp [rainValuesWithin, List.filter_cons, h1] at ihs ⊢
      linarith
    · simp [rainValuesWithin, List.filter_cons, h1] at ihs ⊢
      linarith

/-- C8: with non-negative rainfall values (history and current reading),
the rolling sums are monotone in the window size:
sum_1h ≤ sum_3h ≤ sum_6h ≤ sum_12h ≤ sum_24h (so any two windows
w1 < w2 among {1h,3h,6h,12h,24h} satisfy sum_w1 ≤ sum_w2, the
qualifying set of the smaller window being a subset of the larger's). -/
theorem C8_window_sums_monotone (recent_obs : List Obs) (rain_mm : ℚ)
    (hnn : ∀ o ∈ recent_obs, 0 ≤ o.rain_mm) (_hr : 0 ≤ rain_mm) :
    (collect_rolling_features recent_obs rain_mm).rain_sum_1h ≤
      (collect_rolling_features recent_obs rain_mm).rain_sum_3h
    ∧ (collect_rolling_features recent_obs rain_mm).rain_sum_3h ≤
      (collect_rolling_features recent_obs rain_mm).rain_sum_6h
    ∧ (collect_rolling_features recent_obs rain_mm).rain_sum_6h ≤
      (collect_rolling_features recent_obs rain_mm).rain_sum_12h
    ∧ (collect_rolling_features recent_obs rain_mm).rain_sum_12h ≤
      (collect_rolling_features recent_obs rain_mm).rain_sum_24h := by
  refine ⟨?_, ?_, ?_, ?_⟩ <;> simp only [collect_rolling_features]
  · exact add_le_add_right (sum_rainValuesWithin_mono recent_obs hnn (by norm_num)) rain_mm
  · exact add_le_add_right (sum_rainValuesWithin_mono recent_obs hnn (by norm_num)) rain_mm
  · exact add_le_add_right (sum_rainValuesWithin_mono recent_obs hnn (by norm_num)) rain_mm
  · exact add_le_add_right (sum_rainValuesWithin_le_total recent_obs hnn 43200) rain_mm

/-- C8 witness: a two-observation history (ages 1000s and 40000s) with
current reading 1mm, through `C8_window_sums_monotone`. -/
theorem C8_window_sums_monotone_witness :
    (collect_rolling_features [{ age_s := 1000, rain_mm := 2 },
        { age_s := 40000, rain_mm := 1 }] 1).rain_sum_1h ≤
      (collect_rolling_features [{ age_s := 1000, rain_mm := 2 },
        { age_s := 40000, rain_mm := 1 }] 1).rain_sum_3h
    ∧ (collect_rolling_features [{ age_s := 1000, rain_mm := 2 },
        { age_s := 40000, rain_mm := 1 }] 1).rain_sum_3h ≤
      (collect_rolling_features [{ age_s := 1000, rain_mm := 2 },
        { age_s := 40000, rain_mm := 1 }] 1).rain_sum_6h
    ∧ (collect_rolling_features [{ age_s := 1000, rain_mm := 2 },
        { age_s := 40000, rain_mm := 1 }] 1).rain_sum_6h ≤
      (collect_rolling_features [{ age_s := 1000, rain_mm := 2 },
        { age_s := 40000, rain_mm := 1 }] 1).rain_sum_12h
    ∧ (collect_rolling_features [{ age_s := 1000, rain_mm := 2 },
        { age_s := 40000, rain_mm := 1 }] 1).rain_sum_12h ≤
      (collect_rolling_features [{ age_s := 1000, rain_mm := 2 },
        { age_s := 40000, rain_mm := 1 }] 1).rain_sum_24h :=
  C8_window_sums_monotone _ _ (by decide) (by norm_num)

/-- C9: `engineer_features` is idempotent: re-enriching an
already-enriched row (base columns unchanged, as the function itself
guarantees) reproduces identical values for every derived column. -/
theorem C9_engineer_features_idempotent :
    (∀ df : EnrichedRow, engineer_features (engineer_features df) = engineer_features df)
    ∧ (∀ df : EnrichedRow, (engineer_features df).base = df.base)
    ∧ (∀ row : FeatureRow,
        engineer_features (engineer_features_row row) = engineer_features_row row) :=
  ⟨fun _ => rfl, fun _ => rfl, fun _ => rfl⟩

end Mlflood
